import Mathlib

/-!
Verification of the Evolution API Home Assistant integration core:
the gateway client (`api.py`), the per-command payload builders, the
persistent state cache (`storage.py`) and the group-refresh change
notification path (`__init__.py`, `button.py`).

Python dictionaries are modelled as association lists over `String`
keys (insertion order preserved, keys unique in practice); JSON values
as the inductive `JVal`; a raised exception as the `Except.error` case.
-/

/-- A JSON value as produced or consumed by the integration. Floats are
carried opaquely (only latitude/longitude use them); no reasoning ever
compares two floats. -/
inductive JVal where
  | null
  | bool (b : Bool)
  | int (n : Int)
  | float (f : Float)
  | str (s : String)
  | arr (xs : List JVal)
  | obj (fields : List (String × JVal))

/-- Keys of an association-list dictionary, in order. -/
def keys {α : Type} (d : List (String × α)) : List String :=
  d.map Prod.fst

/-- Python `d[k]` / `d.get(k)`: first value bound to `k`, if any. -/
def dictGet {α : Type} : List (String × α) → String → Option α
  | [], _ => Option.none
  | (k, v) :: rest, key => if k = key then some v else dictGet rest key

/-- Python `d.get(k, dflt)`. -/
def dictGetD {α : Type} (d : List (String × α)) (key : String) (dflt : α) : α :=
  (dictGet d key).getD dflt

/-- Python `d[k] = v`: replace the value in place if the key is present,
append the binding otherwise. -/
def dictSet {α : Type} : List (String × α) → String → α → List (String × α)
  | [], key, v => [(key, v)]
  | (k, v') :: rest, key, v =>
      if k = key then (key, v) :: rest else (k, v') :: dictSet rest key v

theorem dictGet_append {α : Type} (p q : List (String × α)) (k : String) :
    dictGet (p ++ q) k = ((dictGet p k).orElse (fun _ => dictGet q k)) := by
  induction p with
  | nil => simp [dictGet, Option.orElse]
  | cons hd tl ih =>
      obtain ⟨k', v⟩ := hd
      by_cases h : k' = k <;> simp [dictGet, h, ih, Option.orElse]

theorem dictGet_eq_none_iff {α : Type} (d : List (String × α)) (k : String) :
    dictGet d k = Option.none ↔ k ∉ keys d := by
  induction d with
  | nil => simp [dictGet, keys]
  | cons hd tl ih =>
      obtain ⟨k', v⟩ := hd
      by_cases h : k' = k
      · subst h
        simp [dictGet, keys]
      · have h2 : k ≠ k' := fun hh => h hh.symm
        simp [dictGet, keys, h, h2, ih]

theorem dictGet_dictSet_self {α : Type} (d : List (String × α)) (k : String) (v : α) :
    dictGet (dictSet d k v) k = some v := by
  induction d with
  | nil => simp [dictSet, dictGet]
  | cons hd tl ih =>
      obtain ⟨k', v'⟩ := hd
      by_cases h : k' = k <;> simp [dictSet, h, dictGet, ih]

theorem dictGet_dictSet_ne {α : Type} (d : List (String × α)) (k k' : String) (v : α)
    (h : k' ≠ k) : dictGet (dictSet d k v) k' = dictGet d k' := by
  have h2 : ¬ k = k' := fun hh => h hh.symm
  induction d with
  | nil => simp [dictSet, dictGet, h2]
  | cons hd tl ih =>
      obtain ⟨k₀, v₀⟩ := hd
      by_cases h₀ : k₀ = k
      · subst h₀
        simp [dictSet, dictGet, h2]
      · by_cases h₁ : k₀ = k' <;> simp [dictSet, dictGet, h, h₀, h₁, ih]

/-! ## Gateway client (`api.py`) -/

/-- An HTTP response as seen by `_handle_response`: status code, raw body
text, and the JSON decode outcome (`none` models `response.json()`
raising `aiohttp.ContentTypeError`, the decode failure the client
catches). -/
structure HttpResponse where
  status : Nat
  text : String
  jsonBody : Option JVal

/-- The exception classes of `api.py`: `EvolutionApiConnectionError`,
`EvolutionApiAuthError`, and the base `EvolutionApiError` (raised
directly both for 404 and for every other status `>= 400`). -/
inductive ApiError where
  | connectionError (msg : String)
  | authError (msg : String)
  | apiError (msg : String)

/-- Constructor tag of an error, used to compare error kinds. -/
def ApiError.kindIndex : ApiError → Nat
  | ApiError.connectionError _ => 0
  | ApiError.authError _ => 1
  | ApiError.apiError _ => 2

/-- Error kind of a handled response, `none` on success. -/
def errKind {α : Type} : Except ApiError α → Option Nat
  | Except.error e => some e.kindIndex
  | Except.ok _ => Option.none

/-- Shallow embedding of `EvolutionApiClient._handle_response`. -/
def handle_response (r : HttpResponse) : Except ApiError JVal :=
  if r.status = 401 then Except.error (ApiError.authError "Invalid API key")
  else if r.status = 404 then Except.error (ApiError.apiError "Instance not found")
  else if 400 ≤ r.status then
    Except.error (ApiError.apiError ("API error " ++ toString r.status ++ ": " ++ r.text))
  else
    match r.jsonBody with
    | some j => Except.ok j
    | Option.none =>
        Except.ok (JVal.obj [("status", JVal.int (Int.ofNat r.status)),
                             ("message", JVal.str r.text)])

/-- Outcome of `aiohttp` `response.json()`: a decoded value; an
`aiohttp.ContentTypeError` (content type is not JSON — the one decode
failure `_handle_response` catches); or a `json.JSONDecodeError` (JSON
content type but malformed body — a `ValueError`, which is neither
`ContentTypeError` nor `aiohttp.ClientError`). `HttpResponse.jsonBody`
above covers only the first two modes; the full classification,
including the uncaught third mode, is `handle_response_full` below. -/
inductive BodyDecode where
  | ok (j : JVal)
  | contentTypeError
  | jsonDecodeError

/-- What a call of `_handle_response` does: return a value, raise a
classified API error, or let a Python exception escape uncaught. -/
inductive HandleOutcome where
  | ok (j : JVal)
  | raised (e : ApiError)
  | uncaught (exc : String)

/-- Shallow embedding of `_handle_response` with the decode failure
modes distinguished: the success branch catches only
`aiohttp.ContentTypeError` and converts it to the fallback object, while
a `json.JSONDecodeError` from a malformed body propagates uncaught out
of the method (no enclosing handler catches a `ValueError`). -/
def handle_response_full (status : Nat) (tx : String) (body : BodyDecode) :
    HandleOutcome :=
  if status = 401 then HandleOutcome.raised (ApiError.authError "Invalid API key")
  else if status = 404 then
    HandleOutcome.raised (ApiError.apiError "Instance not found")
  else if 400 ≤ status then
    HandleOutcome.raised
      (ApiError.apiError ("API error " ++ toString status ++ ": " ++ tx))
  else
    match body with
    | BodyDecode.ok j => HandleOutcome.ok j
    | BodyDecode.contentTypeError =>
        HandleOutcome.ok (JVal.obj [("status", JVal.int (Int.ofNat status)),
                                    ("message", JVal.str tx)])
    | BodyDecode.jsonDecodeError => HandleOutcome.uncaught "json.JSONDecodeError"

/-- Conversion of the caught-mode result type into the full outcome type. -/
def toOutcome : Except ApiError JVal → HandleOutcome
  | Except.ok v => HandleOutcome.ok v
  | Except.error e => HandleOutcome.raised e

/-! ## Command payload builders (`api.py` send methods)

Python `if v: payload[k] = v` on an optional argument skips both `None`
and falsy values (`0`, `""`, `[]`); the helpers below reproduce that
truthiness test. Keys are appended in source order, so the dictionaries
are built by list append (all keys distinct). -/

/-- Conditionally add an optional string field (skipped when `None` or empty). -/
def add_opt_str (p : List (String × JVal)) (key : String) (v : Option String) :
    List (String × JVal) :=
  match v with
  | Option.none => p
  | some s => if s = "" then p else p ++ [(key, JVal.str s)]

/-- Conditionally add an optional integer field (skipped when `None` or `0`). -/
def add_opt_int (p : List (String × JVal)) (key : String) (v : Option Int) :
    List (String × JVal) :=
  match v with
  | Option.none => p
  | some n => if n = 0 then p else p ++ [(key, JVal.int n)]

/-- Conditionally add an optional string-list field (skipped when `None` or empty). -/
def add_opt_list (p : List (String × JVal)) (key : String) (v : Option (List String)) :
    List (String × JVal) :=
  match v with
  | Option.none => p
  | some l => if l.isEmpty then p else p ++ [(key, JVal.arr (l.map JVal.str))]

/-- Payload built by `EvolutionApiClient.send_text`. -/
def send_text_payload (number text : String) (delay : Option Int)
    (link_preview mention_all : Bool) (mentioned : Option (List String)) :
    List (String × JVal) :=
  let p := [("number", JVal.str number), ("text", JVal.str text),
            ("linkPreview", JVal.bool link_preview)]
  let p := add_opt_int p "delay" delay
  let p := if mention_all then p ++ [("mentionsEveryOne", JVal.bool true)] else p
  add_opt_list p "mentioned" mentioned

/-- The `mimetype_map` literal of `EvolutionApiClient.send_media`. -/
def mimetype_map : List (String × String) :=
  [("image", "image/png"), ("video", "video/mp4"), ("document", "application/pdf")]

/-- Payload built by `EvolutionApiClient.send_media` (the `mimetype` key is
assigned last, after the conditional fields). -/
def send_media_payload (number media_url media_type : String)
    (caption filename : Option String) (delay : Option Int) :
    List (String × JVal) :=
  let p := [("number", JVal.str number), ("mediatype", JVal.str media_type),
            ("media", JVal.str media_url)]
  let p := add_opt_str p "caption" caption
  let p := add_opt_str p "fileName" filename
  let p := add_opt_int p "delay" delay
  p ++ [("mimetype", JVal.str (dictGetD mimetype_map media_type "application/octet-stream"))]

/-- Payload built by `EvolutionApiClient.send_location`. -/
def send_location_payload (number : String) (latitude longitude : Float)
    (name addr : Option String) (delay : Option Int) : List (String × JVal) :=
  let p := [("number", JVal.str number), ("latitude", JVal.float latitude),
            ("longitude", JVal.float longitude)]
  let p := add_opt_str p "name" name
  let p := add_opt_str p "address" addr
  add_opt_int p "delay" delay

/-! ## Group listing (`fetch_all_groups`) -/

/-- Endpoint constant from `const.py`. -/
def API_ENDPOINT_FETCH_ALL_GROUPS : String := "/group/fetchAllGroups"

/-- URL built by `EvolutionApiClient.fetch_all_groups`. -/
def fetch_all_groups_url (server_url instance_id : String)
    (get_participants : Bool) : String :=
  server_url ++ API_ENDPOINT_FETCH_ALL_GROUPS ++ "/" ++ instance_id ++
    "?getParticipants=" ++ (if get_participants then "true" else "false")

/-- Result computation of `fetch_all_groups`: the handled response is
returned as-is when it is a list, any non-list success becomes `[]`,
and errors propagate. -/
def fetch_all_groups_result (r : HttpResponse) : Except ApiError (List JVal) :=
  match handle_response r with
  | Except.error e => Except.error e
  | Except.ok (JVal.arr xs) => Except.ok xs
  | Except.ok _ => Except.ok []

/-! ## Group identifier normalization -/

/-- The fixed group domain suffix named by the spec. -/
def GROUP_SUFFIX : String := "@g.us"

/-- Modelled from the spec: no group-identifier normalization routine
exists anywhere under the repository source (no occurrence of `@g.us`);
per the spec, normalization appends the fixed domain suffix `@g.us`
unless the identifier already ends with it. -/
def normalize_group_id (x : String) : String :=
  if GROUP_SUFFIX.data.isSuffixOf x.data then x else x ++ GROUP_SUFFIX

/-! ## State cache (`storage.py`) -/

/-- The default document of `EvolutionApiStorage._get_default_data`. -/
def default_data : List (String × JVal) :=
  [("groups", JVal.arr []),
   ("groups_count", JVal.int 0),
   ("groups_last_updated", JVal.null),
   ("connection_state", JVal.str "unknown"),
   ("connection_last_updated", JVal.null),
   ("instance_info", JVal.obj [])]

/-- In-memory state of one `EvolutionApiStorage`: `_data` and `_loaded`. -/
structure StorageState where
  data : List (String × JVal)
  loaded : Bool

/-- State of a storage object just after `__init__`. -/
def initial_storage : StorageState := StorageState.mk [] false

/-- Shallow embedding of `EvolutionApiStorage.async_load`. The `stored`
argument is what `Store.async_load` yields from durable storage (`none`
when absent); Python's `if stored:` also treats an empty dict as absent. -/
def async_load (stored : Option (List (String × JVal))) (s : StorageState) :
    List (String × JVal) × StorageState :=
  if s.loaded then (s.data, s)
  else
    let d := match stored with
      | some st => if st.isEmpty then default_data else st
      | Option.none => default_data
    (d, StorageState.mk d true)

/-- Document update performed by `EvolutionApiStorage.async_save_groups`
(`now` is `dt_util.now().isoformat()`). -/
def save_groups_data (now : String) (groups : List JVal)
    (d : List (String × JVal)) : List (String × JVal) :=
  dictSet (dictSet (dictSet d "groups" (JVal.arr groups))
    "groups_count" (JVal.int (Int.ofNat groups.length)))
    "groups_last_updated" (JVal.str now)

/-- Observable side effects of the refresh path: a durable flush of the
full document (`Store.async_save`) or a bus event (`hass.bus.async_fire`). -/
inductive Effect where
  | saveStore (doc : List (String × JVal))
  | fireEvent (eventName entryId : String) (count : Nat)

/-- Shallow embedding of `EvolutionApiStorage.async_save_groups`: update
the three groups fields, then flush the full document. -/
def async_save_groups (now : String) (groups : List JVal) (s : StorageState) :
    StorageState × List Effect :=
  let d := save_groups_data now groups s.data
  (StorageState.mk d s.loaded, [Effect.saveStore d])

/-- Integration domain constant from `const.py`. -/
def DOMAIN : String := "evolution_api"

/-- Event name fired after a groups refresh. -/
def groups_updated_event : String := DOMAIN ++ "_groups_updated"

/-- One entry of `hass.data[DOMAIN]` as the refresh path sees it. -/
structure EntryData where
  entryId : String
  hasClient : Bool
  storage : Option StorageState

/-- Effects of the per-entry body of the `async_refresh_groups` loop in
`__init__.py` (the body of `RefreshGroupsButton.async_press` in
`button.py` is the same sequence for the button's own entry): save to
persistent storage when a storage object is present, then fire exactly
one `evolution_api_groups_updated` event for the entry. -/
def refresh_entry_effects (now : String) (groups : List JVal) (e : EntryData) :
    List Effect :=
  if e.hasClient then
    (match e.storage with
     | some st => (async_save_groups now groups st).2
     | Option.none => [])
    ++ [Effect.fireEvent groups_updated_event e.entryId groups.length]
  else []

/-- Effects of the whole `async_refresh_groups` service handler. -/
def async_refresh_groups_effects (now : String) (groups : List JVal)
    (entries : List EntryData) : List Effect :=
  (entries.map (refresh_entry_effects now groups)).flatten

/-! ## Service layer wiring (`__init__.py`)

The service layer of this snapshot cannot execute: `__init__.py`
requests names from `const.py` that `const.py` never defines, so the
module raises ImportError at load and no service schema is ever
registered; and even granting the import, `async_send_text` passes an
`instance_id` keyword argument that `EvolutionApiClient.send_text`
does not accept, raising TypeError at the call site before any payload
is built. These facts are embedded as name-level checks on the
source's import list and signatures. -/

/-- Top-level names defined by `const.py`: its `Final` assignments,
plus the `Final` import itself. -/
def const_defined_names : List String :=
  ["Final", "DOMAIN",
   "CONF_INSTANCE_ID", "CONF_API_KEY", "CONF_SERVER_URL", "CONF_VERIFY_SSL",
   "DEFAULT_NAME", "DEFAULT_PORT", "DEFAULT_VERIFY_SSL", "DEFAULT_TIMEOUT",
   "API_ENDPOINT_GET_INFO", "API_ENDPOINT_CREATE_INSTANCE",
   "API_ENDPOINT_FETCH_INSTANCES", "API_ENDPOINT_INSTANCE_CONNECT",
   "API_ENDPOINT_RESTART_INSTANCE", "API_ENDPOINT_CONNECTION_STATE",
   "API_ENDPOINT_LOGOUT_INSTANCE", "API_ENDPOINT_DELETE_INSTANCE",
   "API_ENDPOINT_SEND_TEXT", "API_ENDPOINT_SEND_MEDIA", "API_ENDPOINT_SEND_AUDIO",
   "API_ENDPOINT_SEND_STICKER", "API_ENDPOINT_SEND_LOCATION",
   "API_ENDPOINT_SEND_CONTACT", "API_ENDPOINT_SEND_REACTION",
   "API_ENDPOINT_SEND_POLL", "API_ENDPOINT_SEND_LIST", "API_ENDPOINT_SEND_BUTTONS",
   "API_ENDPOINT_SEND_STATUS", "API_ENDPOINT_CHECK_IS_WHATSAPP",
   "API_ENDPOINT_MARK_MESSAGE_READ", "API_ENDPOINT_MARK_MESSAGE_UNREAD",
   "API_ENDPOINT_ARCHIVE_CHAT", "API_ENDPOINT_DELETE_MESSAGE",
   "API_ENDPOINT_SEND_PRESENCE", "API_ENDPOINT_FETCH_PROFILE_PICTURE",
   "API_ENDPOINT_FETCH_ALL_GROUPS", "API_ENDPOINT_FIND_GROUP",
   "API_ENDPOINT_GROUP_PARTICIPANTS", "API_ENDPOINT_FETCH_PROFILE",
   "SERVICE_SEND_TEXT", "SERVICE_SEND_MEDIA", "SERVICE_SEND_AUDIO",
   "SERVICE_SEND_STICKER", "SERVICE_SEND_LOCATION", "SERVICE_SEND_CONTACT",
   "SERVICE_SEND_REACTION", "SERVICE_SEND_POLL", "SERVICE_CHECK_NUMBER",
   "ATTR_PHONE_NUMBER", "ATTR_MESSAGE", "ATTR_MEDIA_URL", "ATTR_MEDIA_TYPE",
   "ATTR_MEDIA_CAPTION", "ATTR_FILENAME", "ATTR_AUDIO_URL", "ATTR_STICKER_URL",
   "ATTR_LATITUDE", "ATTR_LONGITUDE", "ATTR_LOCATION_NAME", "ATTR_LOCATION_ADDRESS",
   "ATTR_CONTACT_NAME", "ATTR_CONTACT_PHONE", "ATTR_CONTACT_EMAIL",
   "ATTR_CONTACT_ORG", "ATTR_MESSAGE_ID", "ATTR_REACTION", "ATTR_POLL_NAME",
   "ATTR_POLL_OPTIONS", "ATTR_POLL_MAX_SELECTIONS", "ATTR_DELAY",
   "ATTR_LINK_PREVIEW", "ATTR_MENTION_ALL", "ATTR_MENTIONED",
   "MEDIA_TYPE_IMAGE", "MEDIA_TYPE_VIDEO", "MEDIA_TYPE_DOCUMENT",
   "PRESENCE_AVAILABLE", "PRESENCE_COMPOSING", "PRESENCE_RECORDING",
   "PRESENCE_PAUSED"]

/-- The names requested by the statement `from .const import (...)` in
`__init__.py` (lines 22-65). -/
def init_const_imports : List String :=
  ["ATTR_AUDIO_URL", "ATTR_CONTACT_EMAIL", "ATTR_CONTACT_NAME", "ATTR_CONTACT_ORG",
   "ATTR_CONTACT_PHONE", "ATTR_DELAY", "ATTR_FILENAME", "ATTR_GROUP_ID",
   "ATTR_LATITUDE", "ATTR_LINK_PREVIEW", "ATTR_LOCATION_ADDRESS",
   "ATTR_LOCATION_NAME", "ATTR_LONGITUDE", "ATTR_MEDIA_CAPTION", "ATTR_MEDIA_TYPE",
   "ATTR_MEDIA_URL", "ATTR_MENTION_ALL", "ATTR_MESSAGE", "ATTR_MESSAGE_ID",
   "ATTR_PHONE_NUMBER", "ATTR_TARGET", "ATTR_INSTANCE_ID",
   "ATTR_POLL_MAX_SELECTIONS", "ATTR_POLL_NAME", "ATTR_POLL_OPTIONS",
   "ATTR_REACTION", "ATTR_STICKER_URL", "CONF_API_KEY", "CONF_INSTANCE_ID",
   "CONF_SERVER_URL", "CONF_VERIFY_SSL", "DEFAULT_VERIFY_SSL", "DOMAIN",
   "SERVICE_CHECK_NUMBER", "SERVICE_SEND_AUDIO", "SERVICE_SEND_CONTACT",
   "SERVICE_SEND_LOCATION", "SERVICE_SEND_MEDIA", "SERVICE_SEND_POLL",
   "SERVICE_SEND_REACTION", "SERVICE_SEND_STICKER", "SERVICE_SEND_TEXT"]

/-- A Python from-import succeeds iff every requested name is defined
in the module; a missing name raises ImportError at module load. -/
def from_import_ok (defined requested : List String) : Bool :=
  requested.all (fun n => defined.contains n)

/-- Parameter names of `EvolutionApiClient.send_text` (api.py:152-159),
`self` aside; the signature has no catch-all keyword parameter. -/
def send_text_param_names : List String :=
  ["number", "text", "delay", "link_preview", "mention_all", "mentioned"]

/-- Keyword arguments the `async_send_text` handler passes to
`client.send_text` (`__init__.py` lines 303-310). -/
def async_send_text_call_kwargs : List String :=
  ["number", "text", "delay", "link_preview", "mention_all", "instance_id"]

/-- A Python call binds iff every keyword argument matches a parameter
name; an unexpected keyword raises TypeError at the call site, before
the callee body runs. -/
def call_kwargs_ok (params kwargs : List String) : Bool :=
  kwargs.all (fun n => params.contains n)

/-! ## Shared payload lemmas -/

theorem dictGet_append_single_ne {α : Type} (p : List (String × α)) (key k : String)
    (v : α) (h : k ≠ key) : dictGet (p ++ [(key, v)]) k = dictGet p k := by
  have h2 : ¬ key = k := fun hh => h (Eq.symm hh)
  induction p with
  | nil => simp [dictGet, h2]
  | cons hd tl ih =>
      obtain ⟨k0, v0⟩ := hd
      by_cases h0 : k0 = k <;> simp [dictGet, h0, ih]

theorem dictGet_append_single_of_none {α : Type} (p : List (String × α)) (key : String)
    (v : α) (h : dictGet p key = Option.none) : dictGet (p ++ [(key, v)]) key = some v := by
  induction p with
  | nil => simp [dictGet]
  | cons hd tl ih =>
      obtain ⟨k0, v0⟩ := hd
      by_cases h0 : k0 = key
      · simp [dictGet, h0] at h
      · simp [dictGet, h0] at h ⊢
        exact ih h

theorem dictGet_add_opt_str_ne (p : List (String × JVal)) (key k : String)
    (v : Option String) (h : k ≠ key) : dictGet (add_opt_str p key v) k = dictGet p k := by
  cases v with
  | none => rfl
  | some s =>
      by_cases hs : s = "" <;>
        simp [add_opt_str, hs, dictGet_append_single_ne _ _ _ _ h]

theorem dictGet_add_opt_int_ne (p : List (String × JVal)) (key k : String)
    (v : Option Int) (h : k ≠ key) : dictGet (add_opt_int p key v) k = dictGet p k := by
  cases v with
  | none => rfl
  | some n =>
      by_cases hn : n = 0 <;>
        simp [add_opt_int, hn, dictGet_append_single_ne _ _ _ _ h]

theorem dictGet_add_opt_list_ne (p : List (String × JVal)) (key k : String)
    (v : Option (List String)) (h : k ≠ key) :
    dictGet (add_opt_list p key v) k = dictGet p k := by
  cases v with
  | none => rfl
  | some l =>
      by_cases hl : l.isEmpty <;>
        simp [add_opt_list, hl, dictGet_append_single_ne _ _ _ _ h]

theorem send_media_mimetype (number url mt : String) (c f : Option String)
    (d : Option Int) :
    dictGet (send_media_payload number url mt c f d) "mimetype" =
      some (JVal.str (dictGetD mimetype_map mt "application/octet-stream")) := by
  have hne1 : ("mimetype" : String) ≠ "caption" := by decide
  have hne2 : ("mimetype" : String) ≠ "fileName" := by decide
  have hne3 : ("mimetype" : String) ≠ "delay" := by decide
  simp only [send_media_payload]
  refine dictGet_append_single_of_none _ _ _ ?_
  rw [dictGet_add_opt_int_ne _ _ _ _ hne3, dictGet_add_opt_str_ne _ _ _ _ hne2,
      dictGet_add_opt_str_ne _ _ _ _ hne1]
  rfl

/-! ## Claim theorems -/

/-- C1 counterexample: at status 401 the raised error is
`EvolutionApiAuthError("Invalid API key")`, not the claimed message
"invalid credentials"; and at status 404 the raised error is the base
`EvolutionApiError("Instance not found")`, the very same error kind as
a generic status-500 failure — so no dedicated not-found error exists. -/
theorem C1_counterexample :
    handle_response (HttpResponse.mk 401 "body" Option.none) =
      Except.error (ApiError.authError "Invalid API key")
  ∧ handle_response (HttpResponse.mk 401 "body" Option.none) ≠
      Except.error (ApiError.authError "invalid credentials")
  ∧ handle_response (HttpResponse.mk 404 "body" Option.none) =
      Except.error (ApiError.apiError "Instance not found")
  ∧ errKind (handle_response (HttpResponse.mk 404 "body" Option.none)) =
      errKind (handle_response (HttpResponse.mk 500 "body" Option.none)) := by
  refine ⟨rfl, ?_, rfl, rfl⟩
  intro hcontra
  have h0 : handle_response (HttpResponse.mk 401 "body" Option.none) =
      Except.error (ApiError.authError "Invalid API key") := rfl
  rw [h0] at hcontra
  have h1 : ApiError.authError "Invalid API key" =
      ApiError.authError "invalid credentials" := Except.error.inj hcontra
  have h2 : "Invalid API key" = "invalid credentials" := ApiError.authError.inj h1
  exact absurd h2 (by decide)

/-- C1 (amended): status 401 raises `EvolutionApiAuthError` with message
"Invalid API key"; status 404 raises the shared base `EvolutionApiError`
with message "Instance not found" (there is no dedicated not-found
class); every other status `>= 400` raises the same base error carrying
the status code and the body text verbatim; no status `< 400` raises. -/
theorem C1_amended (st : Nat) (tx : String) (jb : Option JVal) :
    (st = 401 → handle_response (HttpResponse.mk st tx jb) =
      Except.error (ApiError.authError "Invalid API key"))
  ∧ (st = 404 → handle_response (HttpResponse.mk st tx jb) =
      Except.error (ApiError.apiError "Instance not found"))
  ∧ (400 ≤ st → st ≠ 401 → st ≠ 404 →
      handle_response (HttpResponse.mk st tx jb) =
        Except.error (ApiError.apiError ("API error " ++ toString st ++ ": " ++ tx)))
  ∧ (st < 400 → errKind (handle_response (HttpResponse.mk st tx jb)) = Option.none) := by
  refine ⟨?_, ?_, ?_, ?_⟩
  · intro h
    subst h
    rfl
  · intro h
    subst h
    rfl
  · intro h400 h401 h404
    simp [handle_response, h401, h404, h400]
  · intro hlt
    have h401 : ¬ st = 401 := by omega
    have h404 : ¬ st = 404 := by omega
    have h400 : ¬ 400 ≤ st := by omega
    cases jb with
    | some j => simp [handle_response, h401, h404, h400, errKind]
    | none => simp [handle_response, h401, h404, h400, errKind]

/-- Witness for C1_amended at statuses 401, 404, 500 and 200. -/
theorem C1_amended_witness :
    handle_response (HttpResponse.mk 401 "b" Option.none) =
      Except.error (ApiError.authError "Invalid API key")
  ∧ handle_response (HttpResponse.mk 404 "b" Option.none) =
      Except.error (ApiError.apiError "Instance not found")
  ∧ handle_response (HttpResponse.mk 500 "b" Option.none) =
      Except.error (ApiError.apiError ("API error " ++ toString (500 : Nat) ++ ": " ++ "b"))
  ∧ errKind (handle_response (HttpResponse.mk 200 "b" Option.none)) = Option.none :=
  ⟨(C1_amended 401 "b" Option.none).1 rfl,
   (C1_amended 404 "b" Option.none).2.1 rfl,
   (C1_amended 500 "b" Option.none).2.2.1 (by decide) (by decide) (by decide),
   (C1_amended 200 "b" Option.none).2.2.2 (by decide)⟩

/-- C8: the `send_media` payload's `mimetype` is "image/png" for media type
"image", "video/mp4" for "video", "application/pdf" for "document", and
"application/octet-stream" for every other media-type string. -/
theorem C8_mimetype (number url : String) (c f : Option String) (d : Option Int) :
    dictGet (send_media_payload number url "image" c f d) "mimetype" =
      some (JVal.str "image/png")
  ∧ dictGet (send_media_payload number url "video" c f d) "mimetype" =
      some (JVal.str "video/mp4")
  ∧ dictGet (send_media_payload number url "document" c f d) "mimetype" =
      some (JVal.str "application/pdf")
  ∧ ∀ mt : String, mt ≠ "image" → mt ≠ "video" → mt ≠ "document" →
      dictGet (send_media_payload number url mt c f d) "mimetype" =
        some (JVal.str "application/octet-stream") := by
  refine ⟨?_, ?_, ?_, ?_⟩
  · rw [send_media_mimetype]
    rfl
  · rw [send_media_mimetype]
    rfl
  · rw [send_media_mimetype]
    rfl
  · intro mt h1 h2 h3
    rw [send_media_mimetype]
    have g1 : ¬ ("image" : String) = mt := fun hh => h1 hh.symm
    have g2 : ¬ ("video" : String) = mt := fun hh => h2 hh.symm
    have g3 : ¬ ("document" : String) = mt := fun hh => h3 hh.symm
    simp [dictGetD, dictGet, mimetype_map, g1, g2, g3]

/-- Witness for C8_mimetype: known type "image" and unrecognized type "audio". -/
theorem C8_mimetype_witness :
    dictGet (send_media_payload "5511" "u" "image" Option.none Option.none Option.none)
      "mimetype" = some (JVal.str "image/png")
  ∧ dictGet (send_media_payload "5511" "u" "audio" Option.none Option.none Option.none)
      "mimetype" = some (JVal.str "application/octet-stream") :=
  ⟨(C8_mimetype "5511" "u" Option.none Option.none Option.none).1,
   (C8_mimetype "5511" "u" Option.none Option.none Option.none).2.2.2 "audio"
     (by decide) (by decide) (by decide)⟩

/-- C9 counterexample: a status-200 response whose body fails JSON
decoding with `json.JSONDecodeError` (JSON content type, malformed body)
does not produce the fallback structure — the exception escapes
`_handle_response` uncaught, because the code catches only
`aiohttp.ContentTypeError`. -/
theorem C9_counterexample :
    handle_response_full 200 "not json" BodyDecode.jsonDecodeError =
      HandleOutcome.uncaught "json.JSONDecodeError"
  ∧ handle_response_full 200 "not json" BodyDecode.jsonDecodeError ≠
      HandleOutcome.ok (JVal.obj [("status", JVal.int (Int.ofNat 200)),
                                  ("message", JVal.str "not json")]) := by
  constructor
  · rfl
  · intro hcontra
    have h0 : handle_response_full 200 "not json" BodyDecode.jsonDecodeError =
        HandleOutcome.uncaught "json.JSONDecodeError" := rfl
    rw [h0] at hcontra
    exact HandleOutcome.noConfusion hcontra

/-- C9 (amended): for every response with status below 400 whose JSON
decode fails with `aiohttp.ContentTypeError` — the only decode failure
the code catches — the client returns the fallback object carrying the
status code and the raw body text instead of raising; a decode failure
from a malformed body with JSON content type (`json.JSONDecodeError`)
propagates uncaught instead of producing the fallback. -/
theorem C9_amended (st : Nat) (tx : String) (h : st < 400) :
    handle_response_full st tx BodyDecode.contentTypeError =
      HandleOutcome.ok (JVal.obj [("status", JVal.int (Int.ofNat st)),
                                  ("message", JVal.str tx)])
  ∧ handle_response_full st tx BodyDecode.jsonDecodeError =
      HandleOutcome.uncaught "json.JSONDecodeError" := by
  have h401 : ¬ st = 401 := by omega
  have h404 : ¬ st = 404 := by omega
  have h400 : ¬ 400 ≤ st := by omega
  constructor <;> simp [handle_response_full, h401, h404, h400]

/-- Witness for C9_amended at status 200 with body "raw". -/
theorem C9_amended_witness :
    handle_response_full 200 "raw" BodyDecode.contentTypeError =
      HandleOutcome.ok (JVal.obj [("status", JVal.int (Int.ofNat 200)),
                                  ("message", JVal.str "raw")])
  ∧ handle_response_full 200 "raw" BodyDecode.jsonDecodeError =
      HandleOutcome.uncaught "json.JSONDecodeError" :=
  ⟨(C9_amended 200 "raw" (by decide)).1, (C9_amended 200 "raw" (by decide)).2⟩

/-- The caught-mode model `handle_response` is exactly the restriction of
`handle_response_full` to the decode modes the source handles: a decoded
body and a caught `ContentTypeError`. -/
theorem handle_response_full_restricts (st : Nat) (tx : String) (j : JVal) :
    handle_response_full st tx (BodyDecode.ok j) =
      toOutcome (handle_response (HttpResponse.mk st tx (some j)))
  ∧ handle_response_full st tx BodyDecode.contentTypeError =
      toOutcome (handle_response (HttpResponse.mk st tx Option.none)) := by
  by_cases h1 : st = 401 <;> by_cases h2 : st = 404 <;> by_cases h3 : 400 ≤ st <;>
    constructor <;>
      simp [handle_response_full, handle_response, toOutcome, h1, h2, h3]

/-- C2 counterexample: no ValidationError path exists anywhere. The
send-text builder in the command catalog (`api.py`) is a total
function: at the concrete input with the empty recipient string —
neither a phone number nor a group identifier — it builds a request
whose `number` is `""` instead of raising anything. And the service
layer that would carry recipients cannot even run at the concrete
points below: `ATTR_TARGET` and `ATTR_GROUP_ID` are requested by
`__init__.py`'s from-import but undefined in `const.py` (ImportError at
module load), and `async_send_text` passes the keyword `instance_id`,
absent from `send_text`'s parameters (TypeError before any payload is
built). -/
theorem C2_counterexample :
    dictGet (send_text_payload "" "hi" Option.none true false Option.none)
      "number" = some (JVal.str "")
  ∧ ("ATTR_TARGET" ∈ init_const_imports ∧ "ATTR_TARGET" ∉ const_defined_names)
  ∧ ("ATTR_GROUP_ID" ∈ init_const_imports ∧ "ATTR_GROUP_ID" ∉ const_defined_names)
  ∧ from_import_ok const_defined_names init_const_imports = false
  ∧ ("instance_id" ∈ async_send_text_call_kwargs
      ∧ "instance_id" ∉ send_text_param_names)
  ∧ call_kwargs_ok send_text_param_names async_send_text_call_kwargs = false := by
  refine ⟨rfl, ?_, ?_, ?_, ?_, ?_⟩ <;> decide

/-- C2 (amended): no recipient validation of the claimed form exists.
The command catalog builds, for every recipient string (the empty one
included), a request whose `number` field is that single string
verbatim — its builders are total functions with no error path and no
ValidationError class exists in the code. The service entry point that
would supply a recipient cannot run at all: `__init__.py`'s from-import
requests `ATTR_TARGET`/`ATTR_INSTANCE_ID`/`ATTR_GROUP_ID`, which
`const.py` never defines, so the module fails to import; and its
`async_send_text` handler passes the keyword `instance_id`, which
`EvolutionApiClient.send_text` does not accept, failing before any
payload is built. -/
theorem C2_amended :
    (∀ (number text : String) (delay : Option Int) (lp ma : Bool)
        (ment : Option (List String)),
      dictGet (send_text_payload number text delay lp ma ment) "number" =
        some (JVal.str number))
  ∧ from_import_ok const_defined_names init_const_imports = false
  ∧ ("ATTR_INSTANCE_ID" ∈ init_const_imports
      ∧ "ATTR_INSTANCE_ID" ∉ const_defined_names)
  ∧ call_kwargs_ok send_text_param_names async_send_text_call_kwargs = false := by
  refine ⟨?_, by decide, by decide, by decide⟩
  intro number text delay lp ma ment
  have hne : ("number" : String) ≠ "delay" := by decide
  have hne2 : ("number" : String) ≠ "mentionsEveryOne" := by decide
  have hne3 : ("number" : String) ≠ "mentioned" := by decide
  cases ma <;>
    simp [send_text_payload,
          dictGet_add_opt_list_ne _ _ _ _ hne3,
          dictGet_add_opt_int_ne _ _ _ _ hne,
          dictGet_append_single_ne _ _ _ _ hne2, dictGet]

/-- C3: normalizing a bare group identifier appends the fixed domain suffix
(`normalize("123") = "123@g.us"`), and normalization is idempotent on every
string. -/
theorem C3_normalize_idempotent :
    normalize_group_id "123" = "123@g.us"
  ∧ ∀ x : String, normalize_group_id (normalize_group_id x) = normalize_group_id x := by
  constructor
  · rfl
  · intro x
    by_cases h : GROUP_SUFFIX.data.isSuffixOf x.data = true
    · simp [normalize_group_id, h]
    · have hstep : normalize_group_id x = x ++ GROUP_SUFFIX := by
        simp [normalize_group_id, h]
      rw [hstep]
      have hsuf : GROUP_SUFFIX.data.isSuffixOf (x ++ GROUP_SUFFIX).data = true := by
        rw [String.data_append]
        exact List.isSuffixOf_iff_suffix.mpr (List.suffix_append _ _)
      simp [normalize_group_id, hsuf]

/-- C4: the first load on empty durable storage materializes exactly the
documented defaults, and any load performed on an already-loaded state
returns the in-memory copy unchanged, whatever durable storage now holds
(no re-read). -/
theorem C4_load_defaults_idempotent :
    (async_load Option.none initial_storage =
        (default_data, StorageState.mk default_data true)
     ∧ default_data =
        [("groups", JVal.arr []), ("groups_count", JVal.int 0),
         ("groups_last_updated", JVal.null), ("connection_state", JVal.str "unknown"),
         ("connection_last_updated", JVal.null), ("instance_info", JVal.obj [])])
  ∧ ∀ (stored stored' : Option (List (String × JVal))) (s : StorageState),
      async_load stored' (async_load stored s).2 =
        ((async_load stored s).1, (async_load stored s).2) := by
  refine ⟨⟨rfl, rfl⟩, ?_⟩
  intro stored stored' s
  by_cases h : s.loaded
  · simp [async_load, h]
  · simp [async_load, h]

/-- C5: replacing the groups dataset of a loaded cache stores the new list,
sets `groups_count` to its length, stamps `groups_last_updated` with the
(non-null) current timestamp, leaves `connection_state`,
`connection_last_updated` and `instance_info` unchanged, and flushes the
full document exactly once. -/
theorem C5_save_groups_frame (now : String) (groups : List JVal) (s : StorageState)
    (h : s.loaded = true) :
    dictGet (async_save_groups now groups s).1.data "groups" = some (JVal.arr groups)
  ∧ dictGet (async_save_groups now groups s).1.data "groups_count" =
      some (JVal.int (Int.ofNat groups.length))
  ∧ dictGet (async_save_groups now groups s).1.data "groups_last_updated" =
      some (JVal.str now)
  ∧ JVal.str now ≠ JVal.null
  ∧ dictGet (async_save_groups now groups s).1.data "connection_state" =
      dictGet s.data "connection_state"
  ∧ dictGet (async_save_groups now groups s).1.data "connection_last_updated" =
      dictGet s.data "connection_last_updated"
  ∧ dictGet (async_save_groups now groups s).1.data "instance_info" =
      dictGet s.data "instance_info"
  ∧ (async_save_groups now groups s).2 =
      [Effect.saveStore (save_groups_data now groups s.data)] := by
  have g1 : ("groups" : String) ≠ "groups_last_updated" := by decide
  have g2 : ("groups" : String) ≠ "groups_count" := by decide
  have c1 : ("groups_count" : String) ≠ "groups_last_updated" := by decide
  have f1 : ("connection_state" : String) ≠ "groups_last_updated" := by decide
  have f2 : ("connection_state" : String) ≠ "groups_count" := by decide
  have f3 : ("connection_state" : String) ≠ "groups" := by decide
  have f4 : ("connection_last_updated" : String) ≠ "groups_last_updated" := by decide
  have f5 : ("connection_last_updated" : String) ≠ "groups_count" := by decide
  have f6 : ("connection_last_updated" : String) ≠ "groups" := by decide
  have f7 : ("instance_info" : String) ≠ "groups_last_updated" := by decide
  have f8 : ("instance_info" : String) ≠ "groups_count" := by decide
  have f9 : ("instance_info" : String) ≠ "groups" := by decide
  refine ⟨?_, ?_, ?_, fun hc => JVal.noConfusion hc, ?_, ?_, ?_, rfl⟩
  · show dictGet (save_groups_data now groups s.data) "groups" = _
    simp only [save_groups_data]
    rw [dictGet_dictSet_ne _ _ _ _ g1, dictGet_dictSet_ne _ _ _ _ g2,
        dictGet_dictSet_self]
  · show dictGet (save_groups_data now groups s.data) "groups_count" = _
    simp only [save_groups_data]
    rw [dictGet_dictSet_ne _ _ _ _ c1, dictGet_dictSet_self]
  · show dictGet (save_groups_data now groups s.data) "groups_last_updated" = _
    simp only [save_groups_data]
    rw [dictGet_dictSet_self]
  · show dictGet (save_groups_data now groups s.data) "connection_state" = _
    simp only [save_groups_data]
    rw [dictGet_dictSet_ne _ _ _ _ f1, dictGet_dictSet_ne _ _ _ _ f2,
        dictGet_dictSet_ne _ _ _ _ f3]
  · show dictGet (save_groups_data now groups s.data) "connection_last_updated" = _
    simp only [save_groups_data]
    rw [dictGet_dictSet_ne _ _ _ _ f4, dictGet_dictSet_ne _ _ _ _ f5,
        dictGet_dictSet_ne _ _ _ _ f6]
  · show dictGet (save_groups_data now groups s.data) "instance_info" = _
    simp only [save_groups_data]
    rw [dictGet_dictSet_ne _ _ _ _ f7, dictGet_dictSet_ne _ _ _ _ f8,
        dictGet_dictSet_ne _ _ _ _ f9]

/-- Witness for C5_save_groups_frame on a loaded default document. -/
theorem C5_save_groups_frame_witness :
    dictGet (async_save_groups "t0" [JVal.str "g1"]
        (StorageState.mk default_data true)).1.data "groups" =
      some (JVal.arr [JVal.str "g1"])
  ∧ dictGet (async_save_groups "t0" [JVal.str "g1"]
        (StorageState.mk default_data true)).1.data "connection_state" =
      dictGet default_data "connection_state" :=
  ⟨(C5_save_groups_frame "t0" [JVal.str "g1"] (StorageState.mk default_data true) rfl).1,
   (C5_save_groups_frame "t0" [JVal.str "g1"]
      (StorageState.mk default_data true) rfl).2.2.2.2.1⟩

/-- C6: for an entry with a client and a storage object, the refresh path
performs exactly one storage replace followed by exactly one
`evolution_api_groups_updated` notification carrying that entry's id and
the written group count. -/
theorem C6_one_notification (now : String) (groups : List JVal) (e : EntryData)
    (st : StorageState) (hc : e.hasClient = true) (hs : e.storage = some st) :
    refresh_entry_effects now groups e =
      [Effect.saveStore (save_groups_data now groups st.data),
       Effect.fireEvent groups_updated_event e.entryId groups.length]
  ∧ (refresh_entry_effects now groups e).countP
      (fun ef => match ef with
        | Effect.fireEvent _ _ _ => true
        | _ => false) = 1
  ∧ groups_updated_event = "evolution_api_groups_updated" := by
  have h1 : refresh_entry_effects now groups e =
      [Effect.saveStore (save_groups_data now groups st.data),
       Effect.fireEvent groups_updated_event e.entryId groups.length] := by
    simp [refresh_entry_effects, hc, hs, async_save_groups]
  refine ⟨h1, ?_, rfl⟩
  rw [h1]
  rfl

/-- Witness for C6_one_notification on a concrete entry with storage. -/
theorem C6_one_notification_witness :
    refresh_entry_effects "t0" [JVal.str "g"]
        (EntryData.mk "entry1" true (some (StorageState.mk default_data true))) =
      [Effect.saveStore (save_groups_data "t0" [JVal.str "g"] default_data),
       Effect.fireEvent groups_updated_event "entry1" 1] :=
  (C6_one_notification "t0" [JVal.str "g"]
    (EntryData.mk "entry1" true (some (StorageState.mk default_data true)))
    (StorageState.mk default_data true) rfl rfl).1

/-- C7: the group-listing URL carries `getParticipants=true` exactly when
the flag is true and `getParticipants=false` exactly when it is false,
and any successfully handled response whose decoded body is not a list
yields the empty list instead of an error. -/
theorem C7_fetch_groups (server instance_id : String) :
    fetch_all_groups_url server instance_id true =
      server ++ "/group/fetchAllGroups/" ++ instance_id ++ "?getParticipants=true"
  ∧ fetch_all_groups_url server instance_id false =
      server ++ "/group/fetchAllGroups/" ++ instance_id ++ "?getParticipants=false"
  ∧ ∀ (r : HttpResponse) (j : JVal), handle_response r = Except.ok j →
      (∀ xs : List JVal, j ≠ JVal.arr xs) →
      fetch_all_groups_result r = Except.ok [] := by
  refine ⟨?_, ?_, ?_⟩
  · apply String.ext
    simp [fetch_all_groups_url, API_ENDPOINT_FETCH_ALL_GROUPS, String.data_append,
      List.append_assoc]
  · apply String.ext
    simp [fetch_all_groups_url, API_ENDPOINT_FETCH_ALL_GROUPS, String.data_append,
      List.append_assoc]
  · intro r j hok hnot
    unfold fetch_all_groups_result
    rw [hok]
    cases j <;> first | rfl | exact absurd rfl (hnot _)

/-- Witness for C7_fetch_groups: a success response whose body decodes to
an object (not a list) yields the empty group list. -/
theorem C7_fetch_groups_witness :
    fetch_all_groups_result (HttpResponse.mk 200 "t" (some (JVal.obj []))) =
      Except.ok [] :=
  (C7_fetch_groups "s" "i").2.2 (HttpResponse.mk 200 "t" (some (JVal.obj [])))
    (JVal.obj []) rfl (fun xs hcontra => JVal.noConfusion hcontra)

/-- C10: a falsy optional argument is omitted from the built payload
exactly as if it were absent — a delay of 0 and empty-string caption,
filename, name and address produce the same payload as passing nothing,
and those keys never appear in the body. -/
theorem C10_falsy_omitted (number text : String) (lp ma : Bool)
    (ment : Option (List String)) (url mt : String) (lat lon : Float) :
    send_text_payload number text (some 0) lp ma ment =
      send_text_payload number text Option.none lp ma ment
  ∧ send_media_payload number url mt (some "") (some "") (some 0) =
      send_media_payload number url mt Option.none Option.none Option.none
  ∧ send_location_payload number lat lon (some "") (some "") (some 0) =
      send_location_payload number lat lon Option.none Option.none Option.none
  ∧ dictGet (send_text_payload number text (some 0) lp ma ment) "delay" = Option.none
  ∧ dictGet (send_media_payload number url mt (some "") (some "") (some 0))
      "caption" = Option.none
  ∧ dictGet (send_media_payload number url mt (some "") (some "") (some 0))
      "fileName" = Option.none
  ∧ dictGet (send_media_payload number url mt (some "") (some "") (some 0))
      "delay" = Option.none
  ∧ dictGet (send_location_payload number lat lon (some "") (some "") (some 0))
      "name" = Option.none
  ∧ dictGet (send_location_payload number lat lon (some "") (some "") (some 0))
      "address" = Option.none
  ∧ dictGet (send_location_payload number lat lon (some "") (some "") (some 0))
      "delay" = Option.none := by
  have n1 : ("delay" : String) ≠ "mentioned" := by decide
  refine ⟨rfl, rfl, rfl, ?_, rfl, rfl, rfl, rfl, rfl, rfl⟩
  simp only [send_text_payload]
  rw [dictGet_add_opt_list_ne _ _ _ _ n1]
  cases ma <;> rfl
